import Mathlib

/-!
Shallow embedding of the diagnostic-construction slice found in
`compiler/rustc_trait_selection/src/errors.rs` and
`compiler/rustc_plugin_impl/src/errors.rs`, together with a model of the
derive-generated construction routines described by the specification
(the derive implementation itself, `rustc_macros/src/diagnostics/*`, is
only declared in the excerpt, so those parts are modelled from the spec).

The external diagnostic output sink is modelled as an event trace: every
sink operation performed while building a diagnostic is recorded, in
order, in the `events` list of a `Diag`.  This makes ordering and
frame properties directly statable.
-/

namespace DiagCore

/-- Source location ("span"), modelled opaquely as a natural number. -/
abbrev Span := Nat

/-- Interned string symbol. -/
abbrev Symbol := String

/-- Definition identifier, modelled opaquely. -/
abbrev DefId := Nat

/-- Confidence level governing automatic application of a suggestion. -/
inductive Applicability where
  | machineApplicable
  | maybeIncorrect
  | hasPlaceholders
  | unspecified
  deriving DecidableEq, Repr

/-- Severity level of a diagnostic. -/
inductive Level where
  | error
  | warning
  | noteLevel
  | helpLevel
  deriving DecidableEq, Repr

/-- One operation performed against the diagnostic output sink.  The sink
itself is external to the excerpted core; we record each call made to it,
in order. -/
inductive Event where
  | arg (name value : String)
  | setSpan (s : Span)
  | setCode (c : String)
  | spanLabel (s : Span) (key : String)
  | noteMsg (key : String)
  | suggestion (key : String) (parts : List (Span × String)) (app : Applicability)
  | spanNote (primary : Span) (labels : List (Span × String)) (msg : String)
  | helpMsg (msg : String)
  deriving DecidableEq, Repr

/-- A diagnostic under construction: its severity, its main message key,
and the ordered trace of sink operations performed on it. -/
structure Diag where
  level : Level
  messageKey : String
  events : List Event
  deriving DecidableEq, Repr

/-- Allocate a fresh diagnostic at a severity with a main message key
(`Diag::new`). -/
def Diag.new (level : Level) (key : String) : Diag :=
  { level := level, messageKey := key, events := [] }

/-- Record one sink operation at the end of the trace. -/
def Diag.push (d : Diag) (e : Event) : Diag :=
  { d with events := d.events ++ [e] }

/-- Register a named interpolation argument (`Diag::arg`). -/
def Diag.arg (d : Diag) (name value : String) : Diag :=
  d.push (.arg name value)

/-- Set the primary span (`Diag::span`). -/
def Diag.span (d : Diag) (s : Span) : Diag :=
  d.push (.setSpan s)

/-- Attach a stable error code (`Diag::code`). -/
def Diag.code (d : Diag) (c : String) : Diag :=
  d.push (.setCode c)

/-- Attach a labeled span with a sub-message key (`Diag::span_label`). -/
def Diag.span_label (d : Diag) (s : Span) (key : String) : Diag :=
  d.push (.spanLabel s key)

/-- Attach a free-standing note sub-message (`Diag::note`). -/
def Diag.note (d : Diag) (key : String) : Diag :=
  d.push (.noteMsg key)

/-- Attach a multipart suggestion with verbose style
(`Diag::multipart_suggestion_verbose`).  The sink is external; per the
spec it exposes an operation to "add single/multipart suggestions with
applicability", recorded here as one suggestion event carrying the edits
as given. -/
def Diag.multipart_suggestion_verbose (d : Diag) (key : String)
    (parts : List (Span × String)) (app : Applicability) : Diag :=
  d.push (.suggestion key parts app)

/-- Attach a note anchored at a multi-span (`Diag::span_note`). -/
def Diag.span_note (d : Diag) (primary : Span) (labels : List (Span × String))
    (msg : String) : Diag :=
  d.push (.spanNote primary labels msg)

/-- Attach a free-standing help sub-message (`Diag::help`). -/
def Diag.help (d : Diag) (msg : String) : Diag :=
  d.push (.helpMsg msg)

namespace fluent

def trait_selection_negative_positive_conflict : String :=
  "trait_selection_negative_positive_conflict"

def trait_selection_negative_implementation_here : String :=
  "trait_selection_negative_implementation_here"

def trait_selection_negative_implementation_in_crate : String :=
  "trait_selection_negative_implementation_in_crate"

def trait_selection_positive_implementation_here : String :=
  "trait_selection_positive_implementation_here"

def trait_selection_positive_implementation_in_crate : String :=
  "trait_selection_positive_implementation_in_crate"

def trait_selection_adjust_signature_borrow : String :=
  "trait_selection_adjust_signature_borrow"

def trait_selection_adjust_signature_remove_borrow : String :=
  "trait_selection_adjust_signature_remove_borrow"

def trait_selection_closure_kind_mismatch : String :=
  "trait_selection_closure_kind_mismatch"

def trait_selection_closure_kind_requirement : String :=
  "trait_selection_closure_kind_requirement"

def trait_selection_closure_fn_once_label : String :=
  "trait_selection_closure_fn_once_label"

def trait_selection_closure_fn_mut_label : String :=
  "trait_selection_closure_fn_mut_label"

def trait_selection_dump_vtable_entries : String :=
  "trait_selection_dump_vtable_entries"

end fluent

/-- Display string of a middle type `Ty`; the printing machinery is
external, so a type is carried as its display string. -/
abbrev Ty := String

/-- The `NegativePositiveConflict` diagnostic struct.  `trait_desc` is
carried as the display string produced by `print_only_trait_path`;
a Rust `Result&lt;Span, Symbol&gt;` is embedded as `Except Symbol Span`
(`Ok span` ↦ `.ok span`, `Err cname` ↦ `.error cname`). -/
structure NegativePositiveConflict where
  impl_span : Span
  trait_desc : String
  self_ty : Option Ty
  negative_impl_span : Except Symbol Span
  positive_impl_span : Except Symbol Span
  deriving Repr

/-- `NegativePositiveConflict::into_diagnostic`, translated line by line
from the source. -/
def NegativePositiveConflict.into_diagnostic
    (x : NegativePositiveConflict) (level : Level) : Diag :=
  let diag := Diag.new level fluent.trait_selection_negative_positive_conflict
  let diag := diag.arg "trait_desc" x.trait_desc
  let diag := diag.arg "self_desc"
    (match x.self_ty with
     | none => "none"
     | some ty => ty)
  let diag := diag.span x.impl_span
  let diag := diag.code "E0751"
  let diag :=
    match x.negative_impl_span with
    | .ok span =>
        diag.span_label span fluent.trait_selection_negative_implementation_here
    | .error cname =>
        (diag.note fluent.trait_selection_negative_implementation_in_crate).arg
          "negative_impl_cname" cname
  let diag :=
    match x.positive_impl_span with
    | .ok span =>
        diag.span_label span fluent.trait_selection_positive_implementation_here
    | .error cname =>
        (diag.note fluent.trait_selection_positive_implementation_in_crate).arg
          "positive_impl_cname" cname
  diag

/-- The `AdjustSignatureBorrow` choice type. -/
inductive AdjustSignatureBorrow where
  | Borrow (to_borrow : List (Span × String))
  | RemoveBorrow (remove_borrow : List (Span × String))
  deriving DecidableEq, Repr

/-- `AdjustSignatureBorrow::add_to_diagnostic_with`, translated from the
source: each variant registers a `len` argument and then attaches one
multipart verbose suggestion under its own message key. -/
def AdjustSignatureBorrow.add_to_diagnostic_with
    (x : AdjustSignatureBorrow) (diag : Diag) : Diag :=
  match x with
  | .Borrow to_borrow =>
      let diag := diag.arg "len" (toString to_borrow.length)
      diag.multipart_suggestion_verbose
        fluent.trait_selection_adjust_signature_borrow
        to_borrow Applicability.maybeIncorrect
  | .RemoveBorrow remove_borrow =>
      let diag := diag.arg "len" (toString remove_borrow.length)
      diag.multipart_suggestion_verbose
        fluent.trait_selection_adjust_signature_remove_borrow
        remove_borrow Applicability.maybeIncorrect

/-- A HIR node that a local `DefId` may resolve to: either an item (whose
identifier span the code uses) or some other node kind.  The source
pattern `Some(Node::Item(item))` distinguishes items from every other
local node, so one non-item constructor suffices. -/
inductive Node where
  | item (identSpan : Span)
  | other
  deriving DecidableEq, Repr

/-- The slice of the type context `TyCtxt` consumed by
`ObjectUnsafety::into_diagnostic`: definition-path printing and local
HIR lookup (`tcx.hir().get_if_local`). -/
structure TyCtxt where
  def_path_str : DefId → String
  get_if_local : DefId → Option Node

/-- The slice of `ObjectSafetyViolation` consumed by the source:
`error_msg()` and the help message that `solution().add_to` attaches.
The solution machinery lives outside the excerpt; per the spec the sink
exposes an operation to attach help sub-messages, recorded as one help
event. -/
structure ObjectSafetyViolation where
  error_msg : String
  solution : String
  deriving DecidableEq, Repr

/-- The `ObjectUnsafety` diagnostic struct. -/
structure ObjectUnsafety where
  tcx : TyCtxt
  span : Span
  trait_def_id : DefId
  violation : ObjectSafetyViolation

/-- Message attached by the object-safety span note in the source. -/
def objectSafetyNoteText : String :=
  "for a trait to be \"object safe\" it needs to allow building a vtable to allow the call to be resolvable dynamically; for more information visit <https://doc.rust-lang.org/reference/items/traits.html#object-safety>"

/-- `ObjectUnsafety::into_diagnostic`, translated from the source: the
delayed main message is the formatted string; a multi-span starting at
`span` receives two labels when the `DefId` resolves to a local item
node and one label otherwise; the violation's solution (help) is
attached whenever the `DefId` resolves to any local node. -/
def ObjectUnsafety.into_diagnostic (x : ObjectUnsafety) (level : Level) : Diag :=
  let err := Diag.new level
    ("the trait `" ++ x.tcx.def_path_str x.trait_def_id ++
      "` cannot be made into an object")
  let node := x.tcx.get_if_local x.trait_def_id
  let labels : List (Span × String) :=
    match node with
    | some (.item identSpan) =>
        [(identSpan, "this trait cannot be made into an object..."),
         (x.span, "...because " ++ x.violation.error_msg)]
    | _ =>
        [(x.span,
          "the trait cannot be made into an object because " ++
            x.violation.error_msg)]
  let err := err.span_note x.span labels objectSafetyNoteText
  if node.isSome then
    err.help x.violation.solution
  else
    err

/-- Closure kinds, displayed as in the compiler. -/
inductive ClosureKind where
  | fnKind
  | fnMutKind
  | fnOnceKind
  deriving DecidableEq, Repr

/-- Display string of a closure kind. -/
def ClosureKind.display : ClosureKind → String
  | .fnKind => "Fn"
  | .fnMutKind => "FnMut"
  | .fnOnceKind => "FnOnce"

/-- The `ClosureFnOnceLabel` subdiagnostic struct
(`#[label(trait_selection_closure_fn_once_label)]`). -/
structure ClosureFnOnceLabel where
  span : Span
  place : String
  deriving DecidableEq, Repr

/-- The `ClosureFnMutLabel` subdiagnostic struct
(`#[label(trait_selection_closure_fn_mut_label)]`). -/
structure ClosureFnMutLabel where
  span : Span
  place : String
  deriving DecidableEq, Repr

/-- Modelled from the spec: the generated `Subdiagnostic` routine for a
label struct (the derive implementation `rustc_macros/src/diagnostics/`
is absent from the excerpt).  Per §4.4 it registers each interpolation
argument under the field's name and attaches the label at the primary
span under the declared sub-message key. -/
def ClosureFnOnceLabel.add_to_diagnostic (s : ClosureFnOnceLabel) (d : Diag) : Diag :=
  (d.arg "place" s.place).span_label s.span
    fluent.trait_selection_closure_fn_once_label

/-- Modelled from the spec: the generated `Subdiagnostic` routine for
`ClosureFnMutLabel`; see `ClosureFnOnceLabel.add_to_diagnostic`. -/
def ClosureFnMutLabel.add_to_diagnostic (s : ClosureFnMutLabel) (d : Diag) : Diag :=
  (d.arg "place" s.place).span_label s.span
    fluent.trait_selection_closure_fn_mut_label

/-- The `ClosureKindMismatch` diagnostic struct.  The last plain string
field is named `trait_prefix` in the source; it is spelt `trait_pfx`
here. -/
structure ClosureKindMismatch where
  closure_span : Span
  expected : ClosureKind
  found : ClosureKind
  cause_span : Span
  trait_pfx : String
  fn_once_label : Option ClosureFnOnceLabel
  fn_mut_label : Option ClosureFnMutLabel
  deriving DecidableEq, Repr

/-- Modelled from the spec: the generated `Diagnostic` routine for
`ClosureKindMismatch` (derive implementation absent from the excerpt).
Per §4.4 the fixed order is: allocate at the message key, attach the
stable code `E0525`, attach the primary span, attach each label in
declared field order (the attribute-less label on `closure_span` gets
the default sub-key `label`), register each interpolation argument
under its field name, and finally recurse into each subdiagnostic slot
in declared order, once per present instance, with absence producing no
side effect. -/
def ClosureKindMismatch.into_diagnostic (x : ClosureKindMismatch) (level : Level) : Diag :=
  let d := Diag.new level fluent.trait_selection_closure_kind_mismatch
  let d := d.code "E0525"
  let d := d.span x.closure_span
  let d := d.span_label x.closure_span "label"
  let d := d.span_label x.cause_span fluent.trait_selection_closure_kind_requirement
  let d := d.arg "expected" x.expected.display
  let d := d.arg "found" x.found.display
  let d := d.arg "trait_prefix" x.trait_pfx
  let d :=
    match x.fn_once_label with
    | none => d
    | some s => s.add_to_diagnostic d
  match x.fn_mut_label with
  | none => d
  | some s => s.add_to_diagnostic d

/-- Per-field attributes recognized by the attribute grammar that the
claims exercise. -/
inductive FieldAttr where
  | primarySpanAttr
  | labelAttr (subKey : Option String)
  | subdiagnosticAttr
  deriving DecidableEq, Repr

/-- A field of an annotated type at generation time: its name and its
attached role attributes. -/
structure FieldDef where
  name : String
  attrs : List FieldAttr
  deriving DecidableEq, Repr

/-- Field roles assigned by the classifier (the slice the claims need). -/
inductive FieldRole where
  | primaryLocation
  | labelRole (subKey : String)
  | subdiagSlot
  | interpolationArg (name : String)
  deriving DecidableEq, Repr

/-- Modelled from the spec: the Field Classifier (§4.2).  A field whose
attributes claim the primary span is the primary location; a label
attribute yields a label role with the explicit sub-key or the default
sub-key `label`; a subdiagnostic attribute yields a slot; any field
lacking a recognized role defaults to an interpolation argument named
after the field. -/
def classifyField (f : FieldDef) : FieldRole :=
  if f.attrs.contains FieldAttr.primarySpanAttr then
    .primaryLocation
  else
    match f.attrs.find? (fun a =>
        match a with
        | .labelAttr _ => true
        | _ => false) with
    | some (.labelAttr (some k)) => .labelRole k
    | some (.labelAttr none) => .labelRole "label"
    | _ =>
        if f.attrs.contains FieldAttr.subdiagnosticAttr then
          .subdiagSlot
        else
          .interpolationArg f.name

/-- Run-time value of one field, as consumed by a generated routine: a
span for location-role fields and a display string for argument-role
fields. -/
structure FieldVal where
  spanVal : Span
  strVal : String
  deriving DecidableEq, Repr

/-- Primary span of an instance: the value of the first field classified
as the primary location, when present. -/
def primarySpanOf (fvs : List (FieldDef × FieldVal)) : Option Span :=
  (fvs.find? (fun fv => decide (classifyField fv.1 = FieldRole.primaryLocation))).map
    (fun fv => fv.2.spanVal)

/-- Label-attachment step of a generated routine: in declared field
order, attach each label-role field's span under its sub-key. -/
def labelStep (d : Diag) (fvs : List (FieldDef × FieldVal)) : Diag :=
  fvs.foldl (fun d fv =>
    match classifyField fv.1 with
    | .labelRole k => d.span_label fv.2.spanVal k
    | _ => d) d

/-- Argument-registration step of a generated routine: in declared field
order, register each interpolation-argument field's value under the
field's name. -/
def argStep (d : Diag) (fvs : List (FieldDef × FieldVal)) : Diag :=
  fvs.foldl (fun d fv =>
    match classifyField fv.1 with
    | .interpolationArg n => d.arg n fv.2.strVal
    | _ => d) d

/-- Modelled from the spec: the Assembly Code Generator's construction
routine (§4.4) for an aggregate type without suggestion, note, or
subdiagnostic fields, in the fixed order: allocate at the message key,
attach the stable code when present, attach the primary location when
present, attach every label, register every interpolation argument. -/
def runGenerated (key : String) (stableCode : Option String)
    (fvs : List (FieldDef × FieldVal)) (level : Level) : Diag :=
  let d := Diag.new level key
  let d :=
    match stableCode with
    | some c => d.code c
    | none => d
  let d :=
    match primarySpanOf fvs with
    | some s => d.span s
    | none => d
  let d := labelStep d fvs
  argStep d fvs

/-- The `DumpVTableEntries` diagnostic struct; `trait_ref` is carried as
its display string. -/
structure DumpVTableEntries where
  span : Span
  trait_ref : String
  entries : String
  deriving DecidableEq, Repr

/-- Generation-time field list of `DumpVTableEntries`: `span` carries
`#[primary_span]`; `trait_ref` and `entries` carry no attribute. -/
def DumpVTableEntries.fieldDefs : List FieldDef :=
  [{ name := "span", attrs := [FieldAttr.primarySpanAttr] },
   { name := "trait_ref", attrs := [] },
   { name := "entries", attrs := [] }]

/-- The generated construction routine for `DumpVTableEntries`,
instantiating the spec-modelled generator at its field list and an
instance's values. -/
def DumpVTableEntries.into_diagnostic (x : DumpVTableEntries) (level : Level) : Diag :=
  runGenerated fluent.trait_selection_dump_vtable_entries none
    [({ name := "span", attrs := [FieldAttr.primarySpanAttr] },
      { spanVal := x.span, strVal := "" }),
     ({ name := "trait_ref", attrs := [] },
      { spanVal := 0, strVal := x.trait_ref }),
     ({ name := "entries", attrs := [] },
      { spanVal := 0, strVal := x.entries })] level

/-- Number of fields claiming the primary-location role. -/
def countPrimary (fields : List FieldDef) : Nat :=
  fields.countP (fun f => decide (classifyField f = FieldRole.primaryLocation))

/-- Modelled from the spec: the Type Shape Analyzer for an aggregate
type (§4.3): it produces one descriptor using the classifier over every
field, and fails if two fields claim the primary location or if the
declared message key is absent. -/
def analyzeShape (key : Option String) (fields : List FieldDef) :
    Except String (String × List (FieldDef × FieldRole)) :=
  match key with
  | none => .error "missing message key"
  | some k =>
      if 2 ≤ countPrimary fields then
        .error "duplicate primary location"
      else
        .ok (k, fields.map (fun f => (f, classifyField f)))

/-- Suggestions attached to a diagnostic, in order: message key, edit
list, applicability. -/
def suggestionsOf (d : Diag) : List (String × List (Span × String) × Applicability) :=
  d.events.filterMap fun e =>
    match e with
    | .suggestion k parts app => some (k, parts, app)
    | _ => none

/-- Values registered under a given argument name, in order. -/
def argValuesOf (d : Diag) (name : String) : List String :=
  d.events.filterMap fun e =>
    match e with
    | .arg n v => if n = name then some v else none
    | _ => none

/-- Names of all registered arguments, in order. -/
def registeredArgNames (d : Diag) : List String :=
  d.events.filterMap fun e =>
    match e with
    | .arg n _ => some n
    | _ => none

/-- Whether a sink event carries the given message key (as a label,
note, or suggestion key). -/
def eventUsesKey (key : String) (e : Event) : Bool :=
  match e with
  | .spanLabel _ k => k == key
  | .noteMsg k => k == key
  | .suggestion k _ _ => k == key
  | _ => false

/-- Number of labeled spans attached under a given sub-message key. -/
def countLabel (d : Diag) (key : String) : Nat :=
  d.events.countP fun e =>
    match e with
    | .spanLabel _ k => k == key
    | _ => false

/-- Number of note sub-messages attached under a given key. -/
def countNote (d : Diag) (key : String) : Nat :=
  d.events.countP fun e =>
    match e with
    | .noteMsg k => k == key
    | _ => false

/-- Number of help sub-messages attached. -/
def countHelp (d : Diag) : Nat :=
  d.events.countP fun e =>
    match e with
    | .helpMsg _ => true
    | _ => false

/-- Label counts of the attached span notes, in order: one entry per
span-note event, holding how many labeled spans that note carries. -/
def spanNoteLabelCounts (d : Diag) : List Nat :=
  d.events.filterMap fun e =>
    match e with
    | .spanNote _ labels _ => some labels.length
    | _ => none

/-- Whether an `Except` value is in its `ok` form (Rust `Result::is_ok`). -/
def exceptIsOk {ε α : Type} : Except ε α → Bool
  | .ok _ => true
  | .error _ => false

/-- Names of the fields classified as interpolation arguments, in
declared order. -/
def interpolationArgNames (fields : List FieldDef) : List String :=
  fields.filterMap fun f =>
    match classifyField f with
    | .interpolationArg n => some n
    | _ => none

/-- C2: for every `NegativePositiveConflict` instance,
`into_diagnostic` attaches, on the negative side, exactly one of the two
mutually exclusive sub-messages — one span label at the negative impl
span when `negative_impl_span` is `Ok`, or one note (with the
`negative_impl_cname` argument) when it is `Err` — and never both; the
same exclusivity holds independently for the positive side. -/
theorem negative_positive_conflict_sides_exclusive
    (x : NegativePositiveConflict) (level : Level) :
    countLabel (x.into_diagnostic level)
        fluent.trait_selection_negative_implementation_here =
      (if exceptIsOk x.negative_impl_span then 1 else 0)
    ∧ countNote (x.into_diagnostic level)
        fluent.trait_selection_negative_implementation_in_crate =
      (if exceptIsOk x.negative_impl_span then 0 else 1)
    ∧ countLabel (x.into_diagnostic level)
        fluent.trait_selection_positive_implementation_here =
      (if exceptIsOk x.positive_impl_span then 1 else 0)
    ∧ countNote (x.into_diagnostic level)
        fluent.trait_selection_positive_implementation_in_crate =
      (if exceptIsOk x.positive_impl_span then 0 else 1) := by
  obtain ⟨is, td, st, neg, pos⟩ := x
  cases neg <;> cases pos <;>
    simp [NegativePositiveConflict.into_diagnostic, countLabel, countNote,
      exceptIsOk, Diag.new, Diag.push, Diag.arg, Diag.span, Diag.code,
      Diag.span_label, Diag.note, List.countP_append, List.countP_cons,
      fluent.trait_selection_negative_implementation_here,
      fluent.trait_selection_negative_implementation_in_crate,
      fluent.trait_selection_positive_implementation_here,
      fluent.trait_selection_positive_implementation_in_crate]

/-- C9: for every `NegativePositiveConflict` instance,
`into_diagnostic` registers exactly one argument named `self_desc`,
whose value is `"none"` when `self_ty` is `None` and the type's display
string when it is `Some`. -/
theorem negative_positive_conflict_self_desc
    (x : NegativePositiveConflict) (level : Level) :
    argValuesOf (x.into_diagnostic level) "self_desc" =
      [match x.self_ty with
       | none => "none"
       | some ty => ty] := by
  obtain ⟨is, td, st, neg, pos⟩ := x
  cases st <;> cases neg <;> cases pos <;>
    simp [NegativePositiveConflict.into_diagnostic, argValuesOf,
      Diag.new, Diag.push, Diag.arg, Diag.span, Diag.code,
      Diag.span_label, Diag.note, List.filterMap_append]

/-- C5: in both variants of `AdjustSignatureBorrow`,
`add_to_diagnostic_with` appends exactly two sink operations: first the
registration of an argument named `len` whose value is the number of
(span, replacement) edit pairs, then the multipart suggestion; in
particular an empty edit list registers `len = 0` rather than omitting
the argument. -/
theorem adjust_signature_borrow_len_before_suggestion
    (l : List (Span × String)) (d : Diag) :
    ((AdjustSignatureBorrow.Borrow l).add_to_diagnostic_with d).events =
      d.events ++
        [Event.arg "len" (toString l.length),
         Event.suggestion fluent.trait_selection_adjust_signature_borrow l
           Applicability.maybeIncorrect]
    ∧ ((AdjustSignatureBorrow.RemoveBorrow l).add_to_diagnostic_with d).events =
      d.events ++
        [Event.arg "len" (toString l.length),
         Event.suggestion fluent.trait_selection_adjust_signature_remove_borrow l
           Applicability.maybeIncorrect]
    ∧ ((AdjustSignatureBorrow.Borrow []).add_to_diagnostic_with d).events =
      d.events ++
        [Event.arg "len" "0",
         Event.suggestion fluent.trait_selection_adjust_signature_borrow []
           Applicability.maybeIncorrect]
    ∧ ((AdjustSignatureBorrow.RemoveBorrow []).add_to_diagnostic_with d).events =
      d.events ++
        [Event.arg "len" "0",
         Event.suggestion fluent.trait_selection_adjust_signature_remove_borrow []
           Applicability.maybeIncorrect] := by
  refine ⟨?_, ?_, ?_, ?_⟩ <;>
    simp [AdjustSignatureBorrow.add_to_diagnostic_with, Diag.arg,
      Diag.multipart_suggestion_verbose, Diag.push, List.append_assoc] <;>
    decide

/-- C1 counterexample: on the concrete input `Borrow []` (an edit list
holding zero edits) applied to a fresh diagnostic, the routine still
attaches a multipart suggestion (with an empty edit list), so the
resulting diagnostic does not have "no suggestion attached". -/
theorem adjust_signature_borrow_empty_attaches_suggestion :
    suggestionsOf ((AdjustSignatureBorrow.Borrow []).add_to_diagnostic_with
        (Diag.new Level.error "base")) =
      [(fluent.trait_selection_adjust_signature_borrow, [],
        Applicability.maybeIncorrect)]
    ∧ suggestionsOf ((AdjustSignatureBorrow.Borrow []).add_to_diagnostic_with
        (Diag.new Level.error "base")) ≠ [] := by
  constructor
  · rfl
  · decide

/-- C1 amended: in both variants of `AdjustSignatureBorrow`,
`add_to_diagnostic_with` attaches exactly one multipart suggestion
holding the edit pairs exactly as declared, in their declaration order —
also when the edit list is empty, in which case the attached suggestion
carries zero edits (the suggestion call is unconditional). -/
theorem adjust_signature_borrow_suggestion_edits
    (l : List (Span × String)) (d : Diag) :
    suggestionsOf ((AdjustSignatureBorrow.Borrow l).add_to_diagnostic_with d) =
      suggestionsOf d ++
        [(fluent.trait_selection_adjust_signature_borrow, l,
          Applicability.maybeIncorrect)]
    ∧ suggestionsOf ((AdjustSignatureBorrow.RemoveBorrow l).add_to_diagnostic_with d) =
      suggestionsOf d ++
        [(fluent.trait_selection_adjust_signature_remove_borrow, l,
          Applicability.maybeIncorrect)] := by
  simp [AdjustSignatureBorrow.add_to_diagnostic_with, suggestionsOf,
    Diag.arg, Diag.multipart_suggestion_verbose, Diag.push,
    List.filterMap_append]

/-- C4: constructing one variant of `AdjustSignatureBorrow` never uses
the other variant's message key: the `Borrow` branch leaves the number
of events using `adjust_signature_remove_borrow` unchanged while adding
exactly one event under `adjust_signature_borrow`, and symmetrically
for `RemoveBorrow`. -/
theorem adjust_signature_borrow_variant_key_isolation
    (l : List (Span × String)) (d : Diag) :
    ((AdjustSignatureBorrow.Borrow l).add_to_diagnostic_with d).events.countP
        (eventUsesKey fluent.trait_selection_adjust_signature_remove_borrow) =
      d.events.countP
        (eventUsesKey fluent.trait_selection_adjust_signature_remove_borrow)
    ∧ ((AdjustSignatureBorrow.Borrow l).add_to_diagnostic_with d).events.countP
        (eventUsesKey fluent.trait_selection_adjust_signature_borrow) =
      d.events.countP
        (eventUsesKey fluent.trait_selection_adjust_signature_borrow) + 1
    ∧ ((AdjustSignatureBorrow.RemoveBorrow l).add_to_diagnostic_with d).events.countP
        (eventUsesKey fluent.trait_selection_adjust_signature_borrow) =
      d.events.countP
        (eventUsesKey fluent.trait_selection_adjust_signature_borrow)
    ∧ ((AdjustSignatureBorrow.RemoveBorrow l).add_to_diagnostic_with d).events.countP
        (eventUsesKey fluent.trait_selection_adjust_signature_remove_borrow) =
      d.events.countP
        (eventUsesKey fluent.trait_selection_adjust_signature_remove_borrow) + 1 := by
  simp [AdjustSignatureBorrow.add_to_diagnostic_with, eventUsesKey,
    Diag.arg, Diag.multipart_suggestion_verbose, Diag.push,
    List.countP_append, List.countP_cons,
    fluent.trait_selection_adjust_signature_borrow,
    fluent.trait_selection_adjust_signature_remove_borrow]

/-- C6: the run-time construction routines are total, with no error
branch or partial result: on every input, `into_diagnostic` of
`NegativePositiveConflict` returns a diagnostic allocated at the given
severity under the fixed main message key, and `add_to_diagnostic_with`
of `AdjustSignatureBorrow` completes the attachment by performing
exactly two sink operations. -/
theorem construction_routines_total
    (x : NegativePositiveConflict) (level : Level)
    (a : AdjustSignatureBorrow) (d : Diag) :
    (x.into_diagnostic level).level = level
    ∧ (x.into_diagnostic level).messageKey =
        fluent.trait_selection_negative_positive_conflict
    ∧ (a.add_to_diagnostic_with d).events.length = d.events.length + 2 := by
  obtain ⟨is, td, st, neg, pos⟩ := x
  cases neg <;> cases pos <;> cases a <;>
    simp [NegativePositiveConflict.into_diagnostic,
      AdjustSignatureBorrow.add_to_diagnostic_with, Diag.new, Diag.push,
      Diag.arg, Diag.span, Diag.code, Diag.span_label, Diag.note,
      Diag.multipart_suggestion_verbose]

/-- Sink operations of `ClosureKindMismatch.into_diagnostic` that do not
come from a subdiagnostic slot, in order. -/
def ckmBaseEvents (x : ClosureKindMismatch) : List Event :=
  [Event.setCode "E0525",
   Event.setSpan x.closure_span,
   Event.spanLabel x.closure_span "label",
   Event.spanLabel x.cause_span fluent.trait_selection_closure_kind_requirement,
   Event.arg "expected" x.expected.display,
   Event.arg "found" x.found.display,
   Event.arg "trait_prefix" x.trait_pfx]

/-- Sink operations contributed by the `fn_once_label` slot: none when
the slot is empty, the delta of one nested invocation when present. -/
def slotOnceEvents : Option ClosureFnOnceLabel → List Event
  | none => []
  | some s =>
      [Event.arg "place" s.place,
       Event.spanLabel s.span fluent.trait_selection_closure_fn_once_label]

/-- Sink operations contributed by the `fn_mut_label` slot. -/
def slotMutEvents : Option ClosureFnMutLabel → List Event
  | none => []
  | some s =>
      [Event.arg "place" s.place,
       Event.spanLabel s.span fluent.trait_selection_closure_fn_mut_label]

/-- C7: constructing a `ClosureKindMismatch` diagnostic decomposes as
the base events followed by the contribution of each optional
subdiagnostic slot; an empty slot contributes no sink operation (and
the rest of the trace is unchanged), while a filled slot contributes
exactly the events of one invocation of the nested subdiagnostic's
construction routine. -/
theorem closure_kind_mismatch_slot_frame
    (x : ClosureKindMismatch) (level : Level) :
    (x.into_diagnostic level).events =
      ckmBaseEvents x ++ slotOnceEvents x.fn_once_label ++
        slotMutEvents x.fn_mut_label
    ∧ slotOnceEvents none = []
    ∧ slotMutEvents none = []
    ∧ (∀ (s : ClosureFnOnceLabel) (d : Diag),
        (s.add_to_diagnostic d).events = d.events ++ slotOnceEvents (some s))
    ∧ (∀ (s : ClosureFnMutLabel) (d : Diag),
        (s.add_to_diagnostic d).events = d.events ++ slotMutEvents (some s)) := by
  obtain ⟨cs, ex, fo, ca, tp, o, m⟩ := x
  refine ⟨?_, rfl, rfl, ?_, ?_⟩
  · cases o <;> cases m <;>
      simp [ClosureKindMismatch.into_diagnostic,
        ClosureFnOnceLabel.add_to_diagnostic,
        ClosureFnMutLabel.add_to_diagnostic, ckmBaseEvents, slotOnceEvents,
        slotMutEvents, Diag.new, Diag.push, Diag.arg, Diag.span, Diag.code,
        Diag.span_label]
  · intro s d
    simp [ClosureFnOnceLabel.add_to_diagnostic, slotOnceEvents, Diag.arg,
      Diag.span_label, Diag.push, List.append_assoc]
  · intro s d
    simp [ClosureFnMutLabel.add_to_diagnostic, slotMutEvents, Diag.arg,
      Diag.span_label, Diag.push, List.append_assoc]

/-- Registering an argument appends its name to the registered names. -/
theorem registeredArgNames_arg (d : Diag) (n v : String) :
    registeredArgNames (d.arg n v) = registeredArgNames d ++ [n] := by
  simp [registeredArgNames, Diag.arg, Diag.push, List.filterMap_append]

/-- Attaching a labeled span registers no argument. -/
theorem registeredArgNames_span_label (d : Diag) (s : Span) (k : String) :
    registeredArgNames (d.span_label s k) = registeredArgNames d := by
  simp [registeredArgNames, Diag.span_label, Diag.push, List.filterMap_append]

/-- Setting the primary span registers no argument. -/
theorem registeredArgNames_span (d : Diag) (s : Span) :
    registeredArgNames (d.span s) = registeredArgNames d := by
  simp [registeredArgNames, Diag.span, Diag.push, List.filterMap_append]

/-- Attaching a stable code registers no argument. -/
theorem registeredArgNames_code (d : Diag) (c : String) :
    registeredArgNames (d.code c) = registeredArgNames d := by
  simp [registeredArgNames, Diag.code, Diag.push, List.filterMap_append]

/-- A fresh diagnostic has no registered argument. -/
theorem registeredArgNames_new (level : Level) (k : String) :
    registeredArgNames (Diag.new level k) = [] := by
  simp [registeredArgNames, Diag.new]

/-- The label step registers no argument. -/
theorem registeredArgNames_labelStep (fvs : List (FieldDef × FieldVal))
    (d : Diag) :
    registeredArgNames (labelStep d fvs) = registeredArgNames d := by
  induction fvs generalizing d with
  | nil => simp [labelStep]
  | cons fv rest ih =>
      cases h : classifyField fv.1 <;>
        simp only [labelStep, List.foldl_cons, h] at ih ⊢ <;>
        first
          | exact ih d
          | (rw [ih]; apply registeredArgNames_span_label)

/-- The argument step registers exactly the interpolation-argument
fields' names, in declared order. -/
theorem registeredArgNames_argStep (fvs : List (FieldDef × FieldVal))
    (d : Diag) :
    registeredArgNames (argStep d fvs) =
      registeredArgNames d ++ interpolationArgNames (fvs.map Prod.fst) := by
  induction fvs generalizing d with
  | nil => simp [argStep, interpolationArgNames]
  | cons fv rest ih =>
      cases h : classifyField fv.1 <;>
        simp only [argStep, interpolationArgNames, List.foldl_cons,
          List.map_cons, List.filterMap_cons, h] at ih ⊢ <;>
        first
          | exact ih d
          | (rw [ih, registeredArgNames_arg]; simp)

/-- C3: for the spec-modelled generator, the registered argument names
of a constructed diagnostic are exactly the names of the fields
classified as interpolation arguments; for `DumpVTableEntries`, whose
`trait_ref` and `entries` fields carry no role attribute, that set is
exactly those two field names. -/
theorem dump_vtable_entries_arg_roundtrip :
    (∀ (key : String) (stableCode : Option String)
        (fvs : List (FieldDef × FieldVal)) (level : Level),
      registeredArgNames (runGenerated key stableCode fvs level) =
        interpolationArgNames (fvs.map Prod.fst))
    ∧ (∀ (x : DumpVTableEntries) (level : Level),
        registeredArgNames (x.into_diagnostic level) =
          interpolationArgNames DumpVTableEntries.fieldDefs)
    ∧ interpolationArgNames DumpVTableEntries.fieldDefs =
        ["trait_ref", "entries"] := by
  have gen : ∀ (key : String) (stableCode : Option String)
      (fvs : List (FieldDef × FieldVal)) (level : Level),
      registeredArgNames (runGenerated key stableCode fvs level) =
        interpolationArgNames (fvs.map Prod.fst) := by
    intro key sc fvs level
    unfold runGenerated
    cases sc <;> cases hp : primarySpanOf fvs <;>
      simp [registeredArgNames_argStep, registeredArgNames_labelStep,
        registeredArgNames_span, registeredArgNames_code,
        registeredArgNames_new, hp]
  refine ⟨gen, ?_, by decide⟩
  intro x level
  rw [DumpVTableEntries.into_diagnostic, gen]
  rfl

/-- Generation-time field lists used to exercise the shape analyzer:
two fields both claiming the primary location. -/
def twoPrimaryFields : List FieldDef :=
  [{ name := "first_span", attrs := [FieldAttr.primarySpanAttr] },
   { name := "second_span", attrs := [FieldAttr.primarySpanAttr] }]

/-- Generation-time field list with a single primary location. -/
def onePrimaryFields : List FieldDef :=
  [{ name := "span", attrs := [FieldAttr.primarySpanAttr] },
   { name := "msg", attrs := [] }]

/-- C8: the shape analyzer rejects any type in which two fields claim
the primary-location role — the result is the duplicate-primary error,
never a silent choice of one of the two — and every accepted type has
at most one primary location. -/
theorem analyzer_rejects_duplicate_primary (k : String)
    (key : Option String) (fields : List FieldDef) :
    (2 ≤ countPrimary fields →
      analyzeShape (some k) fields = Except.error "duplicate primary location")
    ∧ (∀ descr, analyzeShape key fields = Except.ok descr →
        countPrimary fields ≤ 1) := by
  constructor
  · intro h
    simp [analyzeShape, h]
  · intro descr h
    cases key with
    | none => simp [analyzeShape] at h
    | some k2 =>
        by_contra hgt
        simp [analyzeShape, Nat.le_of_not_lt, Nat.lt_of_not_le] at h
        have : 2 ≤ countPrimary fields := by omega
        simp [this] at h

/-- Witness for C8: on the concrete two-primary field list the analyzer
returns the duplicate-primary error, and a concrete accepted field list
has at most one primary location. -/
theorem analyzer_rejects_duplicate_primary_witness :
    analyzeShape (some "k") twoPrimaryFields =
      Except.error "duplicate primary location"
    ∧ countPrimary onePrimaryFields ≤ 1 :=
  ⟨(analyzer_rejects_duplicate_primary "k" (some "k") twoPrimaryFields).1
      (by decide),
   (analyzer_rejects_duplicate_primary "k" (some "k") onePrimaryFields).2
      ("k", [({ name := "span", attrs := [FieldAttr.primarySpanAttr] },
              FieldRole.primaryLocation),
             ({ name := "msg", attrs := [] },
              FieldRole.interpolationArg "msg")])
      (by rfl)⟩

/-- A concrete `ObjectUnsafety` instance whose trait `DefId` resolves to
a local node that is not an item node. -/
def objectUnsafetyNonItem : ObjectUnsafety :=
  { tcx :=
      { def_path_str := fun _ => "Trait",
        get_if_local := fun _ => some Node.other },
    span := 7,
    trait_def_id := 0,
    violation :=
      { error_msg := "it has a method with no receiver",
        solution := "consider removing the method" } }

/-- C10 counterexample: on a concrete instance whose `DefId` resolves to
a local node that is not an item node, the help (solution) is attached
even though the `DefId` does not resolve to a local item node, and the
span note carries one labeled span — refuting "help if and only if the
DefId resolves to a local item node". -/
theorem object_unsafety_nonitem_counterexample :
    objectUnsafetyNonItem.tcx.get_if_local objectUnsafetyNonItem.trait_def_id =
      some Node.other
    ∧ countHelp (objectUnsafetyNonItem.into_diagnostic Level.error) = 1
    ∧ spanNoteLabelCounts (objectUnsafetyNonItem.into_diagnostic Level.error) =
        [1] := by
  refine ⟨rfl, rfl, rfl⟩

/-- C10 amended: `ObjectUnsafety.into_diagnostic` attaches the
violation's suggested solution (help) if and only if the trait's
`DefId` resolves to any local node; the attached span note carries two
labeled spans exactly when that node is an item node, and exactly one
labeled span otherwise. -/
theorem object_unsafety_help_iff_local (x : ObjectUnsafety) (level : Level) :
    countHelp (x.into_diagnostic level) =
      (if (x.tcx.get_if_local x.trait_def_id).isSome then 1 else 0)
    ∧ spanNoteLabelCounts (x.into_diagnostic level) =
        [match x.tcx.get_if_local x.trait_def_id with
         | some (Node.item _) => 2
         | _ => 1] := by
  rcases h : x.tcx.get_if_local x.trait_def_id with _ | node
  · simp [ObjectUnsafety.into_diagnostic, h, countHelp, spanNoteLabelCounts,
      Diag.new, Diag.push, Diag.span_note, Diag.help, List.countP_append,
      List.countP_cons, List.filterMap_append]
  · cases node <;>
      simp [ObjectUnsafety.into_diagnostic, h, countHelp, spanNoteLabelCounts,
        Diag.new, Diag.push, Diag.span_note, Diag.help, List.countP_append,
        List.countP_cons, List.filterMap_append]

end DiagCore
